import Mathlib

/-!
Verification of the stock ledger and sale-settlement engine of the
VitaSport inventory backend (`src/src-tauri/src/main.rs`).

The SQLite store is embedded as an explicit state (`DB`) holding the rows of
the `products`, `stock_movements` and `sales` tables together with the
autoincrement counters and a logical clock supplying the server-assigned
`created_at` timestamps.  Each Tauri command that the claims mention is
translated into a Lean function from the current state (and, for `add_sale`,
a storage oracle describing which of the fallible statements inside the
transaction fail) to the next state paired with the `Result` value of the command.
The `BEGIN IMMEDIATE` / `COMMIT` / `ROLLBACK` protocol of SQLite is rendered by
buffering: an error anywhere inside the transaction returns the original
state (the rollback), a commit returns the state with all writes applied.
Machine integers (`i32`, `i64`) are modelled as `Int`; quantities that occur
are far below the overflow bounds, and none of the claims concerns overflow.
-/

namespace VitaSport

/-- The serde struct `StockMovement` (main.rs lines 614–621): the wire form
used as input to `add_stock_movement` and as output of
`get_stock_movements`.  The row id is optional on the wire. -/
structure StockMovement where
  id : Option Int
  product_id : Int
  movement_type : String
  quantity : Int
  note : Option String
  created_by : Option Int
deriving Repr, DecidableEq

/-- A stored row of the `stock_movements` table (schema at main.rs lines
745–758): the wire fields plus the server-assigned id and `created_at`
timestamp (modelled as a logical clock value). -/
structure MovementRow where
  id : Int
  product_id : Int
  movement_type : String
  quantity : Int
  note : Option String
  created_by : Option Int
  created_at : Nat
deriving Repr, DecidableEq

/-- The serde struct `Sale` (main.rs lines 650–659).  `sale_price` and
`discount` are `f64` in the source; they are carried through untouched by
every operation the claims mention, so they are embedded as opaque `Float`
payloads on which no arithmetic is ever performed. -/
structure Sale where
  id : Option Int
  product_id : Int
  quantity : Int
  sale_price : Float
  discount : Option Float
  channel : Option String
  sale_date : String
  created_by : Option Int
deriving Repr

/-- A stored row of the `sales` table (schema at main.rs lines 777–788). -/
structure SaleRow where
  id : Int
  product_id : Int
  quantity : Int
  sale_price : Float
  discount : Option Float
  channel : Option String
  sale_date : String
  created_by : Option Int
deriving Repr

/-- The serde struct `Product` (main.rs lines 593–611). -/
structure Product where
  id : Option Int
  sku : Option String
  name : String
  sale_price : Option Float
  cost_price : Option Float
  brand : Option String
  category : Option String
  presentation : Option String
  flavor : Option String
  weight : Option String
  image_path : Option String
  expiry_date : Option String
  lot_number : Option String
  min_stock : Option Int
  max_stock : Option Int
  location : Option String
  status : Option String
deriving Repr

/-- A stored row of the `products` table (schema at main.rs lines 703–721). -/
structure ProductRow where
  id : Int
  sku : Option String
  name : String
  sale_price : Option Float
  cost_price : Option Float
  brand : Option String
  category : Option String
  presentation : Option String
  flavor : Option String
  weight : Option String
  image_path : Option String
  expiry_date : Option String
  lot_number : Option String
  min_stock : Option Int
  max_stock : Option Int
  location : Option String
  status : Option String
deriving Repr

/-- The SQLite database state seen through the one shared connection:
the three tables relevant to the claims, the `AUTOINCREMENT` counters, and
a logical clock assigning the `DEFAULT CURRENT_TIMESTAMP` values of
`created_at` (strictly monotone across inserts). -/
structure DB where
  products : List ProductRow
  stock_movements : List MovementRow
  sales : List SaleRow
  next_product_id : Int
  next_movement_id : Int
  next_sale_id : Int
  now : Nat
deriving Repr

/-- The `CASE` expression (ingreso maps to quantity, egreso to minus quantity,
anything else to 0) shared by the aggregation in
`get_stock_balances` (main.rs line 146) and the inline balance query in
`add_sale` (main.rs line 1043). -/
def caseSum (m : MovementRow) : Int :=
  if m.movement_type = "ingreso" then m.quantity
  else if m.movement_type = "egreso" then -m.quantity
  else 0

/-- The inline balance query of `add_sale` (main.rs lines 1041–1047):
`SELECT COALESCE(SUM(CASE ...),0) FROM stock_movements WHERE
product_id=?1`.  `COALESCE(...,0)` makes the empty aggregate 0, which is
the sum of the empty list here. -/
def balanceOf (movs : List MovementRow) (pid : Int) : Int :=
  ((movs.filter (fun m => m.product_id = pid)).map caseSum).sum

/-- `SELECT COALESCE(SUM(quantity),0) FROM stock_movements WHERE
product_id=?1 AND type matching ingreso` from `export_inventory_report`
(main.rs lines 253–257). -/
def ingresoSum (movs : List MovementRow) (pid : Int) : Int :=
  ((movs.filter (fun m => m.product_id = pid ∧ m.movement_type = "ingreso")).map
    (fun m => m.quantity)).sum

/-- `SELECT COALESCE(SUM(quantity),0) FROM stock_movements WHERE
product_id=?1 AND type matching egreso` from `export_inventory_report`
(main.rs lines 258–262). -/
def egresoSum (movs : List MovementRow) (pid : Int) : Int :=
  ((movs.filter (fun m => m.product_id = pid ∧ m.movement_type = "egreso")).map
    (fun m => m.quantity)).sum

/-- `let current_stock = ingreso - egreso` in `export_inventory_report`
(main.rs line 263): the two-query balance computation of the CSV export. -/
def export_current_stock (movs : List MovementRow) (pid : Int) : Int :=
  ingresoSum movs pid - egresoSum movs pid

/-- The response struct `StockBalance` (main.rs lines 136–140). -/
structure StockBalance where
  product_id : Int
  current_stock : Int
deriving Repr, DecidableEq

/-- `get_stock_balances` (main.rs lines 142–161): `SELECT product_id,
COALESCE(SUM(CASE ...),0) as balance FROM stock_movements GROUP BY
product_id`.  One output row per distinct `product_id` occurring in the
table, whose value is the sum of the CASE expression over the rows of that product; SQL leaves the row order of a bare GROUP BY unspecified, so any
enumeration of the distinct product ids is a faithful rendering. -/
def get_stock_balances (db : DB) : List StockBalance :=
  ((db.stock_movements.map (fun m => m.product_id)).dedup).map
    (fun pid => ⟨pid, balanceOf db.stock_movements pid⟩)

/-- Projection of a stored movement row to the serde struct returned by
`get_stock_movements` (main.rs lines 973–983): the row id becomes
`some id`, `created_at` is not selected. -/
def toStockMovement (m : MovementRow) : StockMovement :=
  ⟨some m.id, m.product_id, m.movement_type, m.quantity, m.note, m.created_by⟩

/-- `ORDER BY created_at DESC` on the `stock_movements` table: the rows
sorted so that later timestamps come first.  The logical clock makes all
`created_at` values distinct, so the descending order is unique. -/
def sortedMovements (db : DB) : List MovementRow :=
  db.stock_movements.insertionSort (fun a b => b.created_at ≤ a.created_at)

/-- `get_stock_movements` (main.rs lines 966–989): `SELECT id, product_id,
type, quantity, note, created_by FROM stock_movements ORDER BY created_at
DESC LIMIT 100`. -/
def get_stock_movements (db : DB) : List StockMovement :=
  ((sortedMovements db).take 100).map toStockMovement

/-- The single `INSERT INTO stock_movements (product_id, type, quantity,
note, created_by) VALUES (...)` statement, shared by `add_stock_movement`
(main.rs lines 994–1004), `add_sale` (lines 1065–1074) and `add_product`
(lines 916–919): appends a row with the server-assigned id and timestamp
and returns `last_insert_rowid()`. -/
def insertMovement (db : DB) (product_id : Int) (movement_type : String)
    (quantity : Int) (note : Option String) (created_by : Option Int) :
    DB × Int :=
  let row : MovementRow :=
    ⟨db.next_movement_id, product_id, movement_type, quantity, note,
      created_by, db.now⟩
  ({ db with
      stock_movements := db.stock_movements ++ [row],
      next_movement_id := db.next_movement_id + 1,
      now := db.now + 1 },
    db.next_movement_id)

/-- `add_stock_movement` (main.rs lines 991–1008): inserts the movement
exactly as received — the function performs no validation of `quantity` or
`movement_type` — and returns `last_insert_rowid()`. -/
def add_stock_movement (db : DB) (movement : StockMovement) :
    DB × Except String Int :=
  let r := insertMovement db movement.product_id movement.movement_type
    movement.quantity movement.note movement.created_by
  (r.1, Except.ok r.2)

/-- The error message built at main.rs line 1049:
`format!("Stock insuficiente. Disponible: {}, solicitado: {}", ...)`. -/
def insufficientStockMsg (available requested : Int) : String :=
  "Stock insuficiente. Disponible: " ++ toString available ++
    ", solicitado: " ++ toString requested

/-- Storage oracle for the fallible statements inside the `add_sale`
transaction: `none` means the statement succeeds, `some e` means it fails
with message `e` (the source maps every rusqlite error to its string). -/
structure Oracle where
  insert_sale_err : Option String
  insert_movement_err : Option String
  commit_err : Option String
deriving Repr, DecidableEq

/-- The oracle under which every storage operation succeeds. -/
def Oracle.noFailure : Oracle := ⟨none, none, none⟩

/-- `add_sale` (main.rs lines 1036–1087).  Inside `BEGIN IMMEDIATE
TRANSACTION`: recompute the balance of the product with the inline CASE-sum
query, fail with the `Stock insuficiente` message when the requested
quantity exceeds it, otherwise insert the sale row and then the paired
egreso movement, and commit.  Any failure rolls the transaction back,
so the error cases return the original state; the commit returns the state
with both rows applied.  (A failed `COMMIT` is likewise modelled as leaving
the store unchanged — SQLite rolls the transaction back on commit
failure.) -/
def add_sale (oracle : Oracle) (db : DB) (sale : Sale) :
    DB × Except String Int :=
  let current_stock := balanceOf db.stock_movements sale.product_id
  if sale.quantity > current_stock then
    (db, Except.error (insufficientStockMsg current_stock sale.quantity))
  else
    match oracle.insert_sale_err with
    | some e => (db, Except.error e)
    | none =>
      let saleRow : SaleRow :=
        ⟨db.next_sale_id, sale.product_id, sale.quantity, sale.sale_price,
          sale.discount, sale.channel, sale.sale_date, sale.created_by⟩
      let db1 : DB :=
        { db with
            sales := db.sales ++ [saleRow],
            next_sale_id := db.next_sale_id + 1 }
      let sale_id := saleRow.id
      match oracle.insert_movement_err with
      | some e => (db, Except.error e)
      | none =>
        let db2 := (insertMovement db1 sale.product_id "egreso" sale.quantity
          none sale.created_by).1
        match oracle.commit_err with
        | some e => (db, Except.error e)
        | none => (db2, Except.ok sale_id)

/-- `add_product` (main.rs lines 863–924): reject a duplicate SKU, insert
the product row, and — when `max_stock` is present and strictly positive —
additionally insert an initial ingreso stock movement of that quantity
with no note and no author (lines 914–921); return the new product id. -/
def add_product (db : DB) (product : Product) : DB × Except String Int :=
  let dup :=
    match product.sku with
    | some skuVal => db.products.any (fun p => p.sku = some skuVal)
    | none => false
  if dup then
    (db, Except.error
      "El SKU ya existe. Usa otro SKU o edita el producto existente.")
  else
    let row : ProductRow :=
      ⟨db.next_product_id, product.sku, product.name, product.sale_price,
        product.cost_price, product.brand, product.category,
        product.presentation, product.flavor, product.weight,
        product.image_path, product.expiry_date, product.lot_number,
        product.min_stock, product.max_stock, product.location,
        product.status⟩
    let db1 : DB :=
      { db with
          products := db.products ++ [row],
          next_product_id := db.next_product_id + 1 }
    let new_id := row.id
    let db2 : DB :=
      match product.max_stock with
      | some max_qty =>
        if max_qty > 0 then
          (insertMovement db1 new_id "ingreso" max_qty none none).1
        else db1
      | none => db1
    (db2, Except.ok new_id)

/-- The state after a successful settlement: the sale row and its paired
egreso movement row appended and the counters advanced — the success
path of `add_sale` (main.rs lines 1051–1080) written out as one state. -/
def settledDB (db : DB) (sale : Sale) : DB :=
  { db with
      sales := db.sales ++ [⟨db.next_sale_id, sale.product_id, sale.quantity,
        sale.sale_price, sale.discount, sale.channel, sale.sale_date,
        sale.created_by⟩],
      next_sale_id := db.next_sale_id + 1,
      stock_movements := db.stock_movements ++ [⟨db.next_movement_id,
        sale.product_id, "egreso", sale.quantity, none, sale.created_by,
        db.now⟩],
      next_movement_id := db.next_movement_id + 1,
      now := db.now + 1 }

/-! Concrete states and inputs used by witnesses and counterexamples. -/

/-- A freshly initialised store: no rows, counters at 1, clock at 0. -/
def emptyDB : DB := ⟨[], [], [], 1, 1, 1, 0⟩

/-- A store holding a single inflow of 5 units of product 7. -/
def dbW : DB := ⟨[], [⟨1, 7, "ingreso", 5, none, none, 0⟩], [], 1, 2, 1, 1⟩

/-- A sale intent for 1 unit of product 7. -/
def sW : Sale := ⟨none, 7, 1, (0 : Float), none, none, "2024-01-01", none⟩

/-- A sale intent for 3 units of product 7. -/
def sW2 : Sale := ⟨none, 7, 3, (0 : Float), none, none, "2024-01-02", none⟩

/-- A malformed movement: quantity 0 is non-positive. -/
def badMovement : StockMovement := ⟨none, 7, "ingreso", 0, none, none⟩

/-- A malformed sale intent: quantity 0 is non-positive. -/
def sZero : Sale := ⟨none, 7, 0, (0 : Float), none, none, "2024-01-03", none⟩

/-- A movement whose kind is neither ingreso nor egreso. -/
def ajusteMovement : StockMovement := ⟨none, 7, "ajuste", 4, none, none⟩

/-- A store holding 101 movements for product 1, with ids and timestamps
1, …, 101 in insertion order. -/
def db101 : DB :=
  ⟨[], (List.range 101).map
      (fun i => ⟨Int.ofNat i + 1, 1, "ingreso", 1, none, none, i + 1⟩),
    [], 1, 102, 1, 102⟩

/-- A product whose `max_stock` is `some 5`. -/
def productW : Product :=
  ⟨none, none, "Proteina", none, none, none, none, none, none, none, none,
    none, none, none, some 5, none, none⟩

/-! Helper lemmas about the balance computations. -/

theorem balanceOf_cons (m : MovementRow) (movs : List MovementRow)
    (pid : Int) :
    balanceOf (m :: movs) pid
      = (if m.product_id = pid then caseSum m else 0) + balanceOf movs pid := by
  by_cases h : m.product_id = pid <;>
    simp [balanceOf, List.filter_cons, h]

theorem balanceOf_append_singleton (movs : List MovementRow)
    (m : MovementRow) (pid : Int) :
    balanceOf (movs ++ [m]) pid
      = balanceOf movs pid
        + (if m.product_id = pid then caseSum m else 0) := by
  by_cases h : m.product_id = pid <;>
    simp [balanceOf, List.filter_append, List.filter_cons, h]

theorem ingresoSum_cons (m : MovementRow) (movs : List MovementRow)
    (pid : Int) :
    ingresoSum (m :: movs) pid
      = (if m.product_id = pid ∧ m.movement_type = "ingreso"
          then m.quantity else 0) + ingresoSum movs pid := by
  by_cases h : m.product_id = pid ∧ m.movement_type = "ingreso" <;>
    simp [ingresoSum, List.filter_cons, h]

theorem egresoSum_cons (m : MovementRow) (movs : List MovementRow)
    (pid : Int) :
    egresoSum (m :: movs) pid
      = (if m.product_id = pid ∧ m.movement_type = "egreso"
          then m.quantity else 0) + egresoSum movs pid := by
  by_cases h : m.product_id = pid ∧ m.movement_type = "egreso" <;>
    simp [egresoSum, List.filter_cons, h]

theorem ingresoSum_append_singleton (movs : List MovementRow)
    (m : MovementRow) (pid : Int) :
    ingresoSum (movs ++ [m]) pid
      = ingresoSum movs pid
        + (if m.product_id = pid ∧ m.movement_type = "ingreso"
            then m.quantity else 0) := by
  by_cases h : m.product_id = pid ∧ m.movement_type = "ingreso" <;>
    simp [ingresoSum, List.filter_append, List.filter_cons, h]

theorem egresoSum_append_singleton (movs : List MovementRow)
    (m : MovementRow) (pid : Int) :
    egresoSum (movs ++ [m]) pid
      = egresoSum movs pid
        + (if m.product_id = pid ∧ m.movement_type = "egreso"
            then m.quantity else 0) := by
  by_cases h : m.product_id = pid ∧ m.movement_type = "egreso" <;>
    simp [egresoSum, List.filter_append, List.filter_cons, h]

/-- The CASE-sum balance equals the inflow sum minus the outflow sum, for
any movement history (movements of any other kind fall through to 0 on both
sides). -/
theorem balanceOf_eq_sub (movs : List MovementRow) (pid : Int) :
    balanceOf movs pid = ingresoSum movs pid - egresoSum movs pid := by
  induction movs with
  | nil => rfl
  | cons m rest ih =>
    rw [balanceOf_cons, ingresoSum_cons, egresoSum_cons, ih]
    by_cases hp : m.product_id = pid
    · by_cases hi : m.movement_type = "ingreso"
      · simp [caseSum, hp, hi] <;> omega
      · by_cases he : m.movement_type = "egreso"
        · simp [caseSum, hp, hi, he] <;> omega
        · simp [caseSum, hp, hi, he] <;> omega
    · simp [hp] <;> omega

/-- Case analysis on one `add_sale` call: either the transaction was rolled
back — the state is unchanged and the result is an error — or it committed,
the result is the id of the new sale and the state is `settledDB`. -/
theorem add_sale_shape (oracle : Oracle) (db : DB) (sale : Sale) :
    ((add_sale oracle db sale).1 = db
      ∧ ∃ e, (add_sale oracle db sale).2 = Except.error e)
    ∨ ((add_sale oracle db sale).2 = Except.ok db.next_sale_id
      ∧ (add_sale oracle db sale).1 = settledDB db sale) := by
  unfold add_sale
  by_cases h : sale.quantity > balanceOf db.stock_movements sale.product_id
  · left
    simp [h]
  · cases hs : oracle.insert_sale_err with
    | some e => left; simp [h, hs]
    | none =>
      cases hm : oracle.insert_movement_err with
      | some e => left; simp [h, hs, hm]
      | none =>
        cases hc : oracle.commit_err with
        | some e => left; simp [h, hs, hm, hc]
        | none =>
          right
          simp [h, hs, hm, hc, insertMovement, settledDB]

/-- `find?` over the per-product rows built from a list of product ids:
any occurrence of `pid` yields the row for `pid`. -/
theorem find?_balance_map (bal : Int → Int) (pid : Int) :
    ∀ l : List Int, pid ∈ l →
      ((l.map (fun q => StockBalance.mk q (bal q))).find?
          (fun sb => sb.product_id = pid))
        = some ⟨pid, bal pid⟩ := by
  intro l hmem
  induction l with
  | nil => cases hmem
  | cons q rest ih =>
    by_cases h : q = pid
    · subst h
      simp [List.find?]
    · have hrest : pid ∈ rest := by
        rcases List.mem_cons.mp hmem with h1 | h1
        · exact absurd h1.symm h
        · exact h1
      rw [List.map_cons, List.find?_cons_of_neg]
      · exact ih hrest
      · simp [h]

/-- C1: for every movement-log state and every product, the balance
computed by the inline CASE-sum query equals the sum of the quantities of
its ingreso movements minus the sum of the quantities of its
egreso movements; with no movements the result is 0 (not an error),
and a single outflow of 3 on empty history yields -3 — negative results
are returned with no clamping. -/
theorem balance_is_inflow_minus_outflow (movs : List MovementRow)
    (pid : Int) :
    balanceOf movs pid = ingresoSum movs pid - egresoSum movs pid
      ∧ balanceOf [] pid = 0
      ∧ balanceOf [⟨1, pid, "egreso", 3, none, none, 0⟩] pid = -3 := by
  refine ⟨balanceOf_eq_sub movs pid, rfl, ?_⟩
  simp [balanceOf, caseSum]

/-- C2: with no storage failure, `add_sale` returns the
`Stock insuficiente` error carrying the balance computed inside the
transaction as available and the quantity of the intent as requested, if and
only if that quantity strictly exceeds that balance. -/
theorem add_sale_insufficient_iff (oracle : Oracle) (db : DB) (sale : Sale)
    (hok : oracle = Oracle.noFailure) :
    (add_sale oracle db sale).2
        = Except.error (insufficientStockMsg
            (balanceOf db.stock_movements sale.product_id) sale.quantity)
      ↔ sale.quantity > balanceOf db.stock_movements sale.product_id := by
  subst hok
  by_cases h : sale.quantity > balanceOf db.stock_movements sale.product_id
  · simp [add_sale, h]
  · simp [add_sale, h, Oracle.noFailure]

/-- Witness for C2: a request for 1 unit against an empty history fails
with available 0, requested 1. -/
theorem add_sale_insufficient_iff_witness :
    (add_sale Oracle.noFailure emptyDB sW).2
      = Except.error (insufficientStockMsg
          (balanceOf emptyDB.stock_movements sW.product_id) sW.quantity) :=
  (add_sale_insufficient_iff Oracle.noFailure emptyDB sW rfl).mpr (by decide)

/-- C3: whenever `add_sale` returns an error — validation failure or
storage failure at any point inside the transaction — the resulting state
equals the starting state: no sale row and no stock movement row persists
that was not already there. -/
theorem add_sale_atomic (oracle : Oracle) (db : DB) (sale : Sale)
    (e : String) (h : (add_sale oracle db sale).2 = Except.error e) :
    (add_sale oracle db sale).1 = db := by
  rcases add_sale_shape oracle db sale with ⟨h1, _⟩ | ⟨h2, _⟩
  · exact h1
  · rw [h2] at h
    cases h

/-- Witness for C3: the failed settlement of 1 unit against an empty
history leaves the store unchanged. -/
theorem add_sale_atomic_witness :
    (add_sale Oracle.noFailure emptyDB sW).1 = emptyDB :=
  add_sale_atomic Oracle.noFailure emptyDB sW
    (insufficientStockMsg 0 1) (by rfl)

/-- C4: every committed sale is accompanied, in the same atomic unit, by
exactly one new egreso stock movement whose product, quantity and
author equal those of the sale; the sales table and the movement log each grow by
exactly that one row. -/
theorem add_sale_pairing (oracle : Oracle) (db : DB) (sale : Sale)
    (sid : Int) (h : (add_sale oracle db sale).2 = Except.ok sid) :
    ∃ srow mrow,
      (add_sale oracle db sale).1.sales = db.sales ++ [srow]
      ∧ (add_sale oracle db sale).1.stock_movements
          = db.stock_movements ++ [mrow]
      ∧ srow.id = sid
      ∧ srow.product_id = sale.product_id
      ∧ srow.quantity = sale.quantity
      ∧ srow.created_by = sale.created_by
      ∧ mrow.movement_type = "egreso"
      ∧ mrow.product_id = sale.product_id
      ∧ mrow.quantity = sale.quantity
      ∧ mrow.created_by = sale.created_by := by
  rcases add_sale_shape oracle db sale with ⟨_, e, he⟩ | ⟨h2, hstate⟩
  · rw [he] at h
    cases h
  · rw [h2] at h
    injection h with hsid
    refine ⟨⟨db.next_sale_id, sale.product_id, sale.quantity,
        sale.sale_price, sale.discount, sale.channel, sale.sale_date,
        sale.created_by⟩,
      ⟨db.next_movement_id, sale.product_id, "egreso", sale.quantity, none,
        sale.created_by, db.now⟩,
      ?_, ?_, hsid, rfl, rfl, rfl, rfl, rfl, rfl, rfl⟩
    · rw [hstate]
      rfl
    · rw [hstate]
      rfl

/-- Witness for C4: settling 3 units of product 7 against a balance of 5
commits the sale row and its paired outflow movement. -/
theorem add_sale_pairing_witness :
    ∃ srow mrow,
      (add_sale Oracle.noFailure dbW sW2).1.sales = dbW.sales ++ [srow]
      ∧ (add_sale Oracle.noFailure dbW sW2).1.stock_movements
          = dbW.stock_movements ++ [mrow]
      ∧ srow.id = 1
      ∧ srow.product_id = sW2.product_id
      ∧ srow.quantity = sW2.quantity
      ∧ srow.created_by = sW2.created_by
      ∧ mrow.movement_type = "egreso"
      ∧ mrow.product_id = sW2.product_id
      ∧ mrow.quantity = sW2.quantity
      ∧ mrow.created_by = sW2.created_by :=
  add_sale_pairing Oracle.noFailure dbW sW2 1 (by rfl)

/-- C5: a successful settlement of quantity q on product P lowers the
balance of P by exactly q and leaves the balance of every other product
unchanged. -/
theorem add_sale_frame (oracle : Oracle) (db : DB) (sale : Sale)
    (sid : Int) (h : (add_sale oracle db sale).2 = Except.ok sid) :
    balanceOf (add_sale oracle db sale).1.stock_movements sale.product_id
        = balanceOf db.stock_movements sale.product_id - sale.quantity
      ∧ ∀ pid, pid ≠ sale.product_id →
          balanceOf (add_sale oracle db sale).1.stock_movements pid
            = balanceOf db.stock_movements pid := by
  rcases add_sale_shape oracle db sale with ⟨_, e, he⟩ | ⟨h2, hstate⟩
  · rw [he] at h
    cases h
  · rw [hstate]
    constructor
    · rw [show (settledDB db sale).stock_movements
          = db.stock_movements ++ [⟨db.next_movement_id, sale.product_id,
              "egreso", sale.quantity, none, sale.created_by, db.now⟩]
          from rfl,
        balanceOf_append_singleton]
      simp [caseSum]
      omega
    · intro pid hpid
      rw [show (settledDB db sale).stock_movements
          = db.stock_movements ++ [⟨db.next_movement_id, sale.product_id,
              "egreso", sale.quantity, none, sale.created_by, db.now⟩]
          from rfl,
        balanceOf_append_singleton]
      simp [Ne.symm hpid]

/-- Witness for C5: settling 3 of product 7 against balance 5 gives
balance 2, while the balance of product 8 is untouched. -/
theorem add_sale_frame_witness :
    balanceOf (add_sale Oracle.noFailure dbW sW2).1.stock_movements
        sW2.product_id
      = balanceOf dbW.stock_movements sW2.product_id - sW2.quantity
    ∧ balanceOf (add_sale Oracle.noFailure dbW sW2).1.stock_movements 8
      = balanceOf dbW.stock_movements 8 :=
  ⟨(add_sale_frame Oracle.noFailure dbW sW2 1 (by rfl)).1,
    (add_sale_frame Oracle.noFailure dbW sW2 1 (by rfl)).2 8 (by decide)⟩

/-- C6 counterexample: non-positive quantities are not rejected by either
entry point — `add_stock_movement` persists a quantity-0 movement and
returns its id, and `add_sale` commits a quantity-0 sale (0 is within the
empty balance 0), persisting a sale row — so the claimed validation does
not exist in the code. -/
theorem malformed_movement_persisted :
    badMovement.quantity ≤ 0
      ∧ (add_stock_movement emptyDB badMovement).2 = Except.ok 1
      ∧ (add_stock_movement emptyDB badMovement).1.stock_movements
          ≠ emptyDB.stock_movements
      ∧ sZero.quantity ≤ 0
      ∧ (add_sale Oracle.noFailure emptyDB sZero).2 = Except.ok 1
      ∧ (add_sale Oracle.noFailure emptyDB sZero).1.sales.length
          = emptyDB.sales.length + 1 :=
  ⟨by decide, rfl, by decide, by decide, rfl, rfl⟩

/-- C6 amended: neither entry point validates its input.
`add_stock_movement` appends every movement to the log as a new row,
whatever its quantity or kind, and returns its id; and the only check in
`add_sale` is the balance comparison, so any sale whose quantity is at
most the balance — including a non-positive quantity — is committed with
its sale row persisted. -/
theorem no_input_validation (db : DB) (movement : StockMovement)
    (sale : Sale)
    (hq : sale.quantity ≤ balanceOf db.stock_movements sale.product_id) :
    ((add_stock_movement db movement).1.stock_movements
        = db.stock_movements
          ++ [⟨db.next_movement_id, movement.product_id,
              movement.movement_type, movement.quantity, movement.note,
              movement.created_by, db.now⟩]
      ∧ (add_stock_movement db movement).2 = Except.ok db.next_movement_id)
    ∧ ((add_sale Oracle.noFailure db sale).2 = Except.ok db.next_sale_id
      ∧ (add_sale Oracle.noFailure db sale).1.sales
          = db.sales ++ [⟨db.next_sale_id, sale.product_id, sale.quantity,
              sale.sale_price, sale.discount, sale.channel, sale.sale_date,
              sale.created_by⟩]) := by
  have h : ¬ sale.quantity > balanceOf db.stock_movements sale.product_id :=
    not_lt.mpr hq
  refine ⟨⟨rfl, rfl⟩, ?_, ?_⟩
  · simp [add_sale, h, Oracle.noFailure]
  · simp [add_sale, h, Oracle.noFailure, insertMovement]

/-- Witness for the amended C6 claim: the quantity-0 movement is appended
to the empty log, and the quantity-0 sale is committed with its sale row
persisted. -/
theorem no_input_validation_witness :
    ((add_stock_movement emptyDB badMovement).1.stock_movements
        = emptyDB.stock_movements
          ++ [⟨1, badMovement.product_id, badMovement.movement_type,
              badMovement.quantity, badMovement.note,
              badMovement.created_by, 0⟩]
      ∧ (add_stock_movement emptyDB badMovement).2 = Except.ok 1)
    ∧ ((add_sale Oracle.noFailure emptyDB sZero).2 = Except.ok 1
      ∧ (add_sale Oracle.noFailure emptyDB sZero).1.sales
          = emptyDB.sales ++ [⟨1, sZero.product_id, sZero.quantity,
              sZero.sale_price, sZero.discount, sZero.channel,
              sZero.sale_date, sZero.created_by⟩]) :=
  no_input_validation emptyDB badMovement sZero (by decide)

/-- C7 counterexample: with 101 recorded movements, the oldest one appears
nowhere in the result of `get_stock_movements` — the `LIMIT 100` in the
query drops it. -/
theorem get_stock_movements_truncates :
    db101.stock_movements.length = 101
      ∧ ¬ ∀ m ∈ db101.stock_movements,
          ∃ r ∈ get_stock_movements db101, r.id = some m.id := by
  exact ⟨by decide, by decide⟩

/-- C7 amended: `get_stock_movements` returns the stored movements ordered
by creation time descending but truncated to the 100 most recent rows
(`LIMIT 100`); every recorded movement appears only when the log holds at
most 100 movements. -/
theorem get_stock_movements_spec (db : DB) :
    (get_stock_movements db).length = min db.stock_movements.length 100
      ∧ (∀ r ∈ get_stock_movements db,
          ∃ m ∈ db.stock_movements, r = toStockMovement m)
      ∧ ((sortedMovements db).take 100).Pairwise
          (fun a b => b.created_at ≤ a.created_at)
      ∧ (db.stock_movements.length ≤ 100 →
          ∀ m ∈ db.stock_movements,
            toStockMovement m ∈ get_stock_movements db) := by
  have hperm := List.perm_insertionSort
    (fun a b : MovementRow => b.created_at ≤ a.created_at) db.stock_movements
  have hlen : (sortedMovements db).length = db.stock_movements.length :=
    hperm.length_eq
  refine ⟨?_, ?_, ?_, ?_⟩
  · simp [get_stock_movements, List.length_take, hlen]
    omega
  · intro r hr
    obtain ⟨m, hm, rfl⟩ := List.mem_map.mp hr
    exact ⟨m, hperm.mem_iff.mp (List.mem_of_mem_take hm), rfl⟩
  · haveI : IsTotal MovementRow (fun a b => b.created_at ≤ a.created_at) :=
      ⟨fun a b => le_total b.created_at a.created_at⟩
    haveI : IsTrans MovementRow (fun a b => b.created_at ≤ a.created_at) :=
      ⟨fun _ _ _ hab hbc => le_trans hbc hab⟩
    exact List.Pairwise.sublist (List.take_sublist 100 _)
      (List.sorted_insertionSort _ db.stock_movements)
  · intro hle m hm
    have htake : (sortedMovements db).take 100 = sortedMovements db :=
      List.take_of_length_le (by omega)
    rw [get_stock_movements, htake]
    exact List.mem_map.mpr ⟨m, hperm.mem_iff.mpr hm, rfl⟩

/-- Witness for the amended C7 claim: on a one-movement log the listing has
length 1 and contains the movement. -/
theorem get_stock_movements_spec_witness :
    (get_stock_movements dbW).length = min dbW.stock_movements.length 100
      ∧ ∀ m ∈ dbW.stock_movements,
          toStockMovement m ∈ get_stock_movements dbW :=
  ⟨(get_stock_movements_spec dbW).1,
    (get_stock_movements_spec dbW).2.2.2 (by decide)⟩

/-- C8: for every product with at least one movement, the grouped CASE-sum
of `get_stock_balances`, the inline balance query of `add_sale`, and the
two-query computation of `export_inventory_report` agree. -/
theorem balance_computations_agree (db : DB) (pid : Int)
    (h : ∃ m ∈ db.stock_movements, m.product_id = pid) :
    (get_stock_balances db).find? (fun sb => sb.product_id = pid)
        = some ⟨pid, balanceOf db.stock_movements pid⟩
      ∧ balanceOf db.stock_movements pid
        = export_current_stock db.stock_movements pid := by
  constructor
  · apply find?_balance_map (fun q => balanceOf db.stock_movements q) pid
    rw [List.mem_dedup]
    obtain ⟨m, hm, hpid⟩ := h
    exact List.mem_map.mpr ⟨m, hm, hpid⟩
  · exact balanceOf_eq_sub db.stock_movements pid

/-- Witness for C8: on the one-inflow store the grouped view reports
product 7 with the inline balance, which equals the export computation. -/
theorem balance_computations_agree_witness :
    (get_stock_balances dbW).find? (fun sb => sb.product_id = 7)
        = some ⟨7, balanceOf dbW.stock_movements 7⟩
      ∧ balanceOf dbW.stock_movements 7
        = export_current_stock dbW.stock_movements 7 :=
  balance_computations_agree dbW 7
    ⟨⟨1, 7, "ingreso", 5, none, none, 0⟩, by decide, rfl⟩

/-- C9: when `add_product` succeeds for a product whose `max_stock` is
present and strictly positive, it also appends one initial ingreso
movement for the new product with quantity `max_stock`; when `max_stock`
is absent or not strictly positive, the movement log is untouched. -/
theorem add_product_initial_movement (db : DB) (product : Product)
    (pid : Int) (h : (add_product db product).2 = Except.ok pid) :
    (∀ q, product.max_stock = some q → 0 < q →
        (add_product db product).1.stock_movements
          = db.stock_movements
            ++ [⟨db.next_movement_id, pid, "ingreso", q, none, none,
                db.now⟩])
      ∧ ((∀ q, product.max_stock = some q → q ≤ 0) →
          (add_product db product).1.stock_movements
            = db.stock_movements) := by
  have hdup : (match product.sku with
      | some skuVal => db.products.any (fun p => p.sku = some skuVal)
      | none => false) = false := by
    by_contra hne
    rw [Bool.not_eq_false] at hne
    simp only [add_product, hne, if_true] at h
    cases h
  have hpid : pid = db.next_product_id := by
    cases hq : product.max_stock with
    | none =>
      simp only [add_product, hdup, Bool.false_eq_true, if_false, hq] at h
      exact (Except.ok.inj h).symm
    | some q =>
      by_cases hqpos : q > 0 <;>
        simp only [add_product, hdup, Bool.false_eq_true, if_false, hq,
          hqpos, if_true, reduceIte] at h <;>
        exact (Except.ok.inj h).symm
  subst hpid
  constructor
  · intro q hq hqpos
    simp only [add_product, hdup, Bool.false_eq_true, if_false, hq,
      hqpos, if_true, reduceIte, insertMovement]
  · intro hnonpos
    cases hq : product.max_stock with
    | none =>
      simp only [add_product, hdup, Bool.false_eq_true, if_false, hq]
    | some q =>
      have : ¬ q > 0 := by
        have := hnonpos q hq
        omega
      simp only [add_product, hdup, Bool.false_eq_true, if_false, hq,
        this, reduceIte]

/-- Witness for C9: adding a product with `max_stock = some 5` to the
empty store appends one ingreso movement of quantity 5 for the new
product id 1. -/
theorem add_product_initial_movement_witness :
    (add_product emptyDB productW).1.stock_movements
      = emptyDB.stock_movements
        ++ [⟨1, 1, "ingreso", 5, none, none, 0⟩] :=
  (add_product_initial_movement emptyDB productW 1 (by rfl)).1 5 rfl
    (by decide)

/-- C10: a movement whose kind is neither ingreso nor egreso is
accepted and stored by `add_stock_movement`, yet contributes exactly zero
to every balance computation: the single-product CASE-sum, the two-query
difference of the export, and the values reported by the grouped
`get_stock_balances` view are all unchanged. -/
theorem unknown_kind_contributes_zero (db : DB) (movement : StockMovement)
    (h1 : movement.movement_type ≠ "ingreso")
    (h2 : movement.movement_type ≠ "egreso") :
    (add_stock_movement db movement).2 = Except.ok db.next_movement_id
      ∧ (add_stock_movement db movement).1.stock_movements
          = db.stock_movements
            ++ [⟨db.next_movement_id, movement.product_id,
                movement.movement_type, movement.quantity, movement.note,
                movement.created_by, db.now⟩]
      ∧ (∀ pid,
          balanceOf (add_stock_movement db movement).1.stock_movements pid
            = balanceOf db.stock_movements pid)
      ∧ (∀ pid,
          export_current_stock
              (add_stock_movement db movement).1.stock_movements pid
            = export_current_stock db.stock_movements pid)
      ∧ ∀ sb ∈ get_stock_balances (add_stock_movement db movement).1,
          sb.current_stock = balanceOf db.stock_movements sb.product_id := by
  have hbal : ∀ pid,
      balanceOf (add_stock_movement db movement).1.stock_movements pid
        = balanceOf db.stock_movements pid := by
    intro pid
    rw [show (add_stock_movement db movement).1.stock_movements
        = db.stock_movements
          ++ [⟨db.next_movement_id, movement.product_id,
              movement.movement_type, movement.quantity, movement.note,
              movement.created_by, db.now⟩] from rfl,
      balanceOf_append_singleton]
    have hzero : caseSum ⟨db.next_movement_id, movement.product_id,
        movement.movement_type, movement.quantity, movement.note,
        movement.created_by, db.now⟩ = 0 := by
      simp [caseSum, h1, h2]
    simp [hzero]
  refine ⟨rfl, rfl, hbal, ?_, ?_⟩
  · intro pid
    rw [show (add_stock_movement db movement).1.stock_movements
        = db.stock_movements
          ++ [⟨db.next_movement_id, movement.product_id,
              movement.movement_type, movement.quantity, movement.note,
              movement.created_by, db.now⟩] from rfl]
    rw [export_current_stock, export_current_stock,
      ingresoSum_append_singleton, egresoSum_append_singleton]
    simp [h1, h2]
  · intro sb hsb
    obtain ⟨pid, _, rfl⟩ := List.mem_map.mp hsb
    exact hbal pid

/-- Witness for C10: an ajuste movement on the one-inflow store is
stored but leaves the balance of product 7 at 5. -/
theorem unknown_kind_contributes_zero_witness :
    (add_stock_movement dbW ajusteMovement).2 = Except.ok 2
      ∧ balanceOf (add_stock_movement dbW ajusteMovement).1.stock_movements 7
        = balanceOf dbW.stock_movements 7 :=
  ⟨(unknown_kind_contributes_zero dbW ajusteMovement (by decide)
      (by decide)).1,
    (unknown_kind_contributes_zero dbW ajusteMovement (by decide)
      (by decide)).2.2.1 7⟩

end VitaSport
